import Mathlib

/-!
Shallow embedding of the globant-data-eng service (FastAPI + SQLModel + PostgreSQL):
the three entity models (`Department`, `Job`, `Employee`), the relational store with
its PostgreSQL-enforced constraints (primary-key uniqueness, NOT NULL, foreign keys),
the three per-entity service classes, the CSV bulk-import endpoints, and the
hires-by-quarter aggregation query.  Python exceptions are modelled with `Except`;
a service call returns its `Except` outcome together with the post-call store state
(on failure the session is rolled back, so the post-state is the pre-state).
-/

namespace Globant

/-- Calendar timestamp, as stored in the `hire_datetime` column.  Only the
components the program inspects (year, month via quarter, day) are modelled. -/
structure DateTime where
  year : Int
  month : Nat
  day : Nat
deriving DecidableEq, Repr

/-- SQL `EXTRACT(QUARTER FROM ts)`: months 1-3 give 1, 4-6 give 2, 7-9 give 3,
10-12 give 4. -/
def DateTime.quarter (dt : DateTime) : Nat := (dt.month - 1) / 3 + 1

/-- `app/models/department.py`: `Department(id: int primary key, department: str)`. -/
structure Department where
  id : Int
  department : String
deriving DecidableEq, Repr

/-- `app/models/job.py`: `Job(id: int primary key, job: str)`. -/
structure Job where
  id : Int
  job : String
deriving DecidableEq, Repr

/-- `app/models/employee.py`: `Employee(id, name, hire_datetime, department_id, job_id)`.
The `hire_datetime` slot is an `Option` because a SQLModel `table=True` instance is
constructed without validation: a field that is never assigned stays `None` at the
ORM level (the column itself is NOT NULL, which the store checks at insert time). -/
structure Employee where
  id : Int
  name : String
  hire_datetime : Option DateTime
  department_id : Int
  job_id : Int
deriving DecidableEq, Repr

/-- The persisted state: three collections keyed by integer id. -/
structure DB where
  departments : List Department
  jobs : List Job
  employees : List Employee
deriving DecidableEq, Repr

/-- PostgreSQL `INSERT` into `departments`: rejects a duplicate primary key. -/
def DB.insertDepartment (db : DB) (d : Department) : Except String DB :=
  if db.departments.any (fun x => x.id == d.id) then
    .error "duplicate key value violates unique constraint departments_pkey"
  else
    .ok { db with departments := db.departments ++ [d] }

/-- PostgreSQL `INSERT` into `jobs`: rejects a duplicate primary key. -/
def DB.insertJob (db : DB) (j : Job) : Except String DB :=
  if db.jobs.any (fun x => x.id == j.id) then
    .error "duplicate key value violates unique constraint jobs_pkey"
  else
    .ok { db with jobs := db.jobs ++ [j] }

/-- PostgreSQL `INSERT` into `employees`: rejects a duplicate primary key, a NULL
`hire_datetime` (the column is declared non-optional, hence NOT NULL), and a
`department_id` or `job_id` that references no existing row. -/
def DB.insertEmployee (db : DB) (e : Employee) : Except String DB :=
  if db.employees.any (fun x => x.id == e.id) then
    .error "duplicate key value violates unique constraint employees_pkey"
  else if e.hire_datetime.isNone then
    .error "null value in column hire_datetime violates not-null constraint"
  else if !(db.departments.any (fun d => d.id == e.department_id)) then
    .error "insert on table employees violates foreign key constraint employees_department_id_fkey"
  else if !(db.jobs.any (fun j => j.id == e.job_id)) then
    .error "insert on table employees violates foreign key constraint employees_job_id_fkey"
  else
    .ok { db with employees := db.employees ++ [e] }

/-- PostgreSQL `DELETE` from `departments`: restricted while employees reference the row. -/
def DB.deleteDepartmentRow (db : DB) (depId : Int) : Except String DB :=
  if db.employees.any (fun e => e.department_id == depId) then
    .error "update or delete on table departments violates foreign key constraint employees_department_id_fkey"
  else
    .ok { db with departments := db.departments.filter (fun d => !(d.id == depId)) }

/-- PostgreSQL `DELETE` from `jobs`: restricted while employees reference the row. -/
def DB.deleteJobRow (db : DB) (jobId : Int) : Except String DB :=
  if db.employees.any (fun e => e.job_id == jobId) then
    .error "update or delete on table jobs violates foreign key constraint employees_job_id_fkey"
  else
    .ok { db with jobs := db.jobs.filter (fun j => !(j.id == jobId)) }

/-- PostgreSQL `DELETE` from `employees`: nothing references employees. -/
def DB.deleteEmployeeRow (db : DB) (empId : Int) : Except String DB :=
  .ok { db with employees := db.employees.filter (fun e => !(e.id == empId)) }

/-- PostgreSQL `UPDATE` of the `departments` row with id `oldId` to `d`:
rejects a duplicate primary key and a key change while employees reference the row. -/
def DB.updateDepartmentRow (db : DB) (oldId : Int) (d : Department) : Except String DB :=
  if db.departments.any (fun x => !(x.id == oldId) && x.id == d.id) then
    .error "duplicate key value violates unique constraint departments_pkey"
  else if !(d.id == oldId) && db.employees.any (fun e => e.department_id == oldId) then
    .error "update or delete on table departments violates foreign key constraint employees_department_id_fkey"
  else
    .ok { db with departments := db.departments.map (fun x => if x.id == oldId then d else x) }

/-- PostgreSQL `UPDATE` of the `jobs` row with id `oldId` to `j`. -/
def DB.updateJobRow (db : DB) (oldId : Int) (j : Job) : Except String DB :=
  if db.jobs.any (fun x => !(x.id == oldId) && x.id == j.id) then
    .error "duplicate key value violates unique constraint jobs_pkey"
  else if !(j.id == oldId) && db.employees.any (fun e => e.job_id == oldId) then
    .error "update or delete on table jobs violates foreign key constraint employees_job_id_fkey"
  else
    .ok { db with jobs := db.jobs.map (fun x => if x.id == oldId then j else x) }

/-- PostgreSQL `UPDATE` of the `employees` row with id `oldId` to `e`. -/
def DB.updateEmployeeRow (db : DB) (oldId : Int) (e : Employee) : Except String DB :=
  if db.employees.any (fun x => !(x.id == oldId) && x.id == e.id) then
    .error "duplicate key value violates unique constraint employees_pkey"
  else if e.hire_datetime.isNone then
    .error "null value in column hire_datetime violates not-null constraint"
  else if !(db.departments.any (fun d => d.id == e.department_id)) then
    .error "update on table employees violates foreign key constraint employees_department_id_fkey"
  else if !(db.jobs.any (fun j => j.id == e.job_id)) then
    .error "update on table employees violates foreign key constraint employees_job_id_fkey"
  else
    .ok { db with employees := db.employees.map (fun x => if x.id == oldId then e else x) }

/-- `app/core/exceptions.py`: the two exception classes the services raise. -/
inductive SvcError where
  | databaseOperationError (message : String)
  | resourceNotFoundError (message : String)
deriving DecidableEq, Repr

/-- `str(e)` on an exception: its message. -/
def SvcError.message : SvcError → String
  | .databaseOperationError m => m
  | .resourceNotFoundError m => m

/-- Python truthiness of a model instance: a SQLModel object defines neither
`__bool__` nor `__len__`, so it is always truthy. -/
def pyTruthy {α : Type} (_ : α) : Bool := true

/-- `DepartmentService.create`: `session.add` + `commit`; on any exception the
session is rolled back and the error is wrapped into `DatabaseOperationError`. -/
def DepartmentService.create (db : DB) (d : Department) : Except SvcError Department × DB :=
  match db.insertDepartment d with
  | .ok db2 => (.ok d, db2)
  | .error msg => (.error (.databaseOperationError ("Error creating department: " ++ msg)), db)

/-- `DepartmentService.get_by_id`: `session.get`, raising `ResourceNotFoundError`
when no row has the id. -/
def DepartmentService.get_by_id (db : DB) (departmentId : Int) : Except SvcError Department :=
  match db.departments.find? (fun d => d.id == departmentId) with
  | some d => .ok d
  | none => .error (.resourceNotFoundError ("Department with ID " ++ toString departmentId ++ " not found"))

/-- `DepartmentService.get_all`: offset/limit slice in insertion order. -/
def DepartmentService.get_all (db : DB) (offset limit : Nat) : List Department :=
  (db.departments.drop offset).take limit

/-- A `Department` request body under `exclude_unset=True` semantics: each field is
present only when explicitly set. -/
structure DepartmentPatch where
  id : Option Int
  department : Option String
deriving DecidableEq, Repr

/-- The `for key, value in update.dict(exclude_unset=True).items(): setattr(...)` loop. -/
def Department.applyPatch (d : Department) (p : DepartmentPatch) : Department :=
  { id := p.id.getD d.id, department := p.department.getD d.department }

/-- `DepartmentService.update`: NOTE the source places `get_by_id` INSIDE the
`try` block, so a `ResourceNotFoundError` for a missing id is caught by
`except Exception` and re-raised as `DatabaseOperationError`. -/
def DepartmentService.update (db : DB) (departmentId : Int) (p : DepartmentPatch) :
    Except SvcError Department × DB :=
  match DepartmentService.get_by_id db departmentId with
  | .error e =>
    (.error (.databaseOperationError ("Error updating department: " ++ e.message)), db)
  | .ok existing =>
    let updated := existing.applyPatch p
    match db.updateDepartmentRow departmentId updated with
    | .ok db2 => (.ok updated, db2)
    | .error msg =>
      (.error (.databaseOperationError ("Error updating department: " ++ msg)), db)

/-- `DepartmentService.delete`: here `get_by_id` is OUTSIDE the `try` block, so a
missing id raises `ResourceNotFoundError` directly; the dead
`if not department` re-raise is kept as in the source. -/
def DepartmentService.delete (db : DB) (departmentId : Int) : Except SvcError Unit × DB :=
  match DepartmentService.get_by_id db departmentId with
  | .error e => (.error e, db)
  | .ok d =>
    if !(pyTruthy d) then
      (.error (.resourceNotFoundError ("Department with ID " ++ toString departmentId ++ " not found")), db)
    else
      match db.deleteDepartmentRow departmentId with
      | .ok db2 => (.ok (), db2)
      | .error msg =>
        (.error (.databaseOperationError ("Error deleting department: " ++ msg)), db)

/-- `JobService.create`. -/
def JobService.create (db : DB) (j : Job) : Except SvcError Job × DB :=
  match db.insertJob j with
  | .ok db2 => (.ok j, db2)
  | .error msg => (.error (.databaseOperationError ("Error creating job: " ++ msg)), db)

/-- `JobService.get_by_id`. -/
def JobService.get_by_id (db : DB) (jobId : Int) : Except SvcError Job :=
  match db.jobs.find? (fun j => j.id == jobId) with
  | some j => .ok j
  | none => .error (.resourceNotFoundError ("Job with ID " ++ toString jobId ++ " not found"))

/-- `JobService.get_all`. -/
def JobService.get_all (db : DB) (offset limit : Nat) : List Job :=
  (db.jobs.drop offset).take limit

/-- A `Job` request body under `exclude_unset=True` semantics. -/
structure JobPatch where
  id : Option Int
  job : Option String
deriving DecidableEq, Repr

/-- The `model_dump(exclude_unset=True)` + `setattr` loop for jobs. -/
def Job.applyPatch (j : Job) (p : JobPatch) : Job :=
  { id := p.id.getD j.id, job := p.job.getD j.job }

/-- `JobService.update`: `get_by_id` is outside the `try`, then the unreachable
`if not existing_job: return None` branch, then the patched write. -/
def JobService.update (db : DB) (jobId : Int) (p : JobPatch) :
    Except SvcError (Option Job) × DB :=
  match JobService.get_by_id db jobId with
  | .error e => (.error e, db)
  | .ok existing =>
    if !(pyTruthy existing) then (.ok none, db)
    else
      let updated := existing.applyPatch p
      match db.updateJobRow jobId updated with
      | .ok db2 => (.ok (some updated), db2)
      | .error msg =>
        (.error (.databaseOperationError ("Error updating job: " ++ msg)), db)

/-- `JobService.delete`: the whole body, `get_by_id` included, sits inside the
`try`, so a missing id surfaces as `DatabaseOperationError` wrapping the
not-found message. -/
def JobService.delete (db : DB) (jobId : Int) : Except SvcError Unit × DB :=
  match JobService.get_by_id db jobId with
  | .error e =>
    (.error (.databaseOperationError ("Error deleting job: " ++ e.message)), db)
  | .ok _ =>
    match db.deleteJobRow jobId with
    | .ok db2 => (.ok (), db2)
    | .error msg =>
      (.error (.databaseOperationError ("Error deleting job: " ++ msg)), db)

/-- `EmployeeService.create`. -/
def EmployeeService.create (db : DB) (e : Employee) : Except SvcError Employee × DB :=
  match db.insertEmployee e with
  | .ok db2 => (.ok e, db2)
  | .error msg => (.error (.databaseOperationError ("Error creating employee: " ++ msg)), db)

/-- `EmployeeService.get_by_id`. -/
def EmployeeService.get_by_id (db : DB) (employeeId : Int) : Except SvcError Employee :=
  match db.employees.find? (fun e => e.id == employeeId) with
  | some e => .ok e
  | none => .error (.resourceNotFoundError ("Employee with ID " ++ toString employeeId ++ " not found"))

/-- `EmployeeService.get_all`. -/
def EmployeeService.get_all (db : DB) (offset limit : Nat) : List Employee :=
  (db.employees.drop offset).take limit

/-- An `Employee` request body under `exclude_unset=True` semantics. -/
structure EmployeePatch where
  id : Option Int
  name : Option String
  hire_datetime : Option DateTime
  department_id : Option Int
  job_id : Option Int
deriving DecidableEq, Repr

/-- The `model_dump(exclude_unset=True)` + `setattr` loop for employees. -/
def Employee.applyPatch (e : Employee) (p : EmployeePatch) : Employee :=
  { id := p.id.getD e.id,
    name := p.name.getD e.name,
    hire_datetime :=
      match p.hire_datetime with
      | some dt => some dt
      | none => e.hire_datetime,
    department_id := p.department_id.getD e.department_id,
    job_id := p.job_id.getD e.job_id }

/-- `EmployeeService.update`: `get_by_id` outside the `try`, the unreachable
`if not existing_employee: return None` branch, then the patched write. -/
def EmployeeService.update (db : DB) (employeeId : Int) (p : EmployeePatch) :
    Except SvcError (Option Employee) × DB :=
  match EmployeeService.get_by_id db employeeId with
  | .error e => (.error e, db)
  | .ok existing =>
    if !(pyTruthy existing) then (.ok none, db)
    else
      let updated := existing.applyPatch p
      match db.updateEmployeeRow employeeId updated with
      | .ok db2 => (.ok (some updated), db2)
      | .error msg =>
        (.error (.databaseOperationError ("Error updating employee: " ++ msg)), db)

/-- `EmployeeService.delete`: the whole body, `get_by_id` included, sits inside
the `try`, so a missing id surfaces as `DatabaseOperationError` wrapping the
not-found message. -/
def EmployeeService.delete (db : DB) (employeeId : Int) : Except SvcError Unit × DB :=
  match EmployeeService.get_by_id db employeeId with
  | .error e =>
    (.error (.databaseOperationError ("Error deleting employee: " ++ e.message)), db)
  | .ok _ =>
    match db.deleteEmployeeRow employeeId with
    | .ok db2 => (.ok (), db2)
    | .error msg =>
      (.error (.databaseOperationError ("Error deleting employee: " ++ msg)), db)

/-! ### Bulk CSV import (`upload_department_csv`, `upload_job_csv`, `upload_employee_csv`)

The claims quantify over the sequence of rows produced by `pd.read_csv` with the
fixed positional column names, so a parsed row is modelled as a record of the
typed column values; the raw-stream stage appears only as an
`Except String (List row)` argument (parse failure is the fatal case). -/

/-- A parsed department CSV row: `names=['id', 'department']`. -/
structure DepartmentCsvRow where
  id : Int
  department : String
deriving DecidableEq, Repr

/-- A parsed job CSV row: `names=['id', 'job']`. -/
structure JobCsvRow where
  id : Int
  job : String
deriving DecidableEq, Repr

/-- A parsed employee CSV row: `names=['id', 'name', 'datetime', 'department_id', 'job_id']`.
The third positional column is labelled `datetime` by the route. -/
structure EmployeeCsvRow where
  id : Int
  name : String
  datetimeCol : DateTime
  department_id : Int
  job_id : Int
deriving DecidableEq, Repr

/-- The route's per-row construction
`Employee(id=row['id'], name=row['name'], datetime=row['datetime'], department_id=..., job_id=...)`.
`datetime` is not a field of `Employee`; SQLModel `table=True` construction skips
validation and ignores unknown keywords, so `hire_datetime` is never assigned and
stays `None` at the ORM level. -/
def employeeFromCsvRow (r : EmployeeCsvRow) : Employee :=
  { id := r.id,
    name := r.name,
    hire_datetime := none,
    department_id := r.department_id,
    job_id := r.job_id }

/-- One iteration of a CSV import loop body: construct the record and call the
service's `create`; the store state advances exactly when the row succeeded
(on failure `create` already rolled back). -/
def departmentCsvStep (db : DB) (r : DepartmentCsvRow) : Except SvcError DB :=
  match DepartmentService.create db { id := r.id, department := r.department } with
  | (.ok _, db2) => .ok db2
  | (.error e, _) => .error e

/-- Per-row body of the job import loop. -/
def jobCsvStep (db : DB) (r : JobCsvRow) : Except SvcError DB :=
  match JobService.create db { id := r.id, job := r.job } with
  | (.ok _, db2) => .ok db2
  | (.error e, _) => .error e

/-- Per-row body of the employee import loop. -/
def employeeCsvStep (db : DB) (r : EmployeeCsvRow) : Except SvcError DB :=
  match EmployeeService.create db (employeeFromCsvRow r) with
  | (.ok _, db2) => .ok db2
  | (.error e, _) => .error e

/-- The shared `for _, row in df.iterrows(): try: ... except Exception: ...` loop:
a successful row advances the store and the success counter, a failed row leaves
the store as rolled back and advances the failure counter, and the loop always
continues with the remaining rows. -/
def csvImportLoop {ρ : Type} (step : DB → ρ → Except SvcError DB) :
    DB → List ρ → Nat → Nat → DB × Nat × Nat
  | db, [], s, f => (db, s, f)
  | db, r :: rest, s, f =>
    match step db r with
    | .ok db2 => csvImportLoop step db2 rest (s + 1) f
    | .error _ => csvImportLoop step db rest s (f + 1)

/-- The upload endpoints' success body: `dict[str, str]` with stringified counts. -/
structure CsvUploadResponse where
  status : String
  successful_imports : String
  failed_imports : String
deriving DecidableEq, Repr

/-- `raise HTTPException(status_code=..., detail=...)`. -/
structure HttpError where
  status_code : Nat
  detail : String
deriving DecidableEq, Repr

/-- The department import over already-parsed rows (the trailing `session.commit()`
commits nothing new: every per-row `create` already committed or rolled back). -/
def uploadDepartmentCsvRows (db : DB) (rows : List DepartmentCsvRow) : CsvUploadResponse × DB :=
  match csvImportLoop departmentCsvStep db rows 0 0 with
  | (db2, s, f) =>
    ({ status := "success", successful_imports := toString s, failed_imports := toString f }, db2)

/-- The job import over already-parsed rows. -/
def uploadJobCsvRows (db : DB) (rows : List JobCsvRow) : CsvUploadResponse × DB :=
  match csvImportLoop jobCsvStep db rows 0 0 with
  | (db2, s, f) =>
    ({ status := "success", successful_imports := toString s, failed_imports := toString f }, db2)

/-- The employee import over already-parsed rows. -/
def uploadEmployeeCsvRows (db : DB) (rows : List EmployeeCsvRow) : CsvUploadResponse × DB :=
  match csvImportLoop employeeCsvStep db rows 0 0 with
  | (db2, s, f) =>
    ({ status := "success", successful_imports := toString s, failed_imports := toString f }, db2)

/-- `upload_department_csv` including the outer `try`/`except`: a failure to read
or parse the stream happens before any row is processed, so `session.rollback()`
leaves the store exactly as it was and the request fails with HTTP 500. -/
def upload_department_csv (parsed : Except String (List DepartmentCsvRow)) (db : DB) :
    Except HttpError CsvUploadResponse × DB :=
  match parsed with
  | .error msg => (.error { status_code := 500, detail := msg }, db)
  | .ok rows =>
    match uploadDepartmentCsvRows db rows with
    | (resp, db2) => (.ok resp, db2)

/-- `upload_job_csv` including the outer `try`/`except`. -/
def upload_job_csv (parsed : Except String (List JobCsvRow)) (db : DB) :
    Except HttpError CsvUploadResponse × DB :=
  match parsed with
  | .error msg => (.error { status_code := 500, detail := msg }, db)
  | .ok rows =>
    match uploadJobCsvRows db rows with
    | (resp, db2) => (.ok resp, db2)

/-- `upload_employee_csv` including the outer `try`/`except`. -/
def upload_employee_csv (parsed : Except String (List EmployeeCsvRow)) (db : DB) :
    Except HttpError CsvUploadResponse × DB :=
  match parsed with
  | .error msg => (.error { status_code := 500, detail := msg }, db)
  | .ok rows =>
    match uploadEmployeeCsvRows db rows with
    | (resp, db2) => (.ok resp, db2)

/-! ### Hiring aggregation (`EmployeeService.get_hired_by_quarter`)

The method's `try` block builds the statement
`SELECT department_id, job_id, quarter(hire_datetime) AS quarter, count(id) AS hired_count
 FROM employees WHERE year(hire_datetime) = :year
 GROUP BY department_id, job_id, quarter ORDER BY department_id, job_id, quarter`
via `col(Employee.hire_datetime).quarter()` and `.year()`.  SQLAlchemy column
attributes and their comparators have no `quarter()` or `year()` method
(`sqlmodel.col` is a typing cast, adding nothing), so statement construction
raises `AttributeError` before the store is ever queried, and the method's
`except Exception` wraps it into `DatabaseOperationError`: the real method
raises on every call.  The aggregation the statement visibly intends — which is
also what the spec describes — is embedded separately as
`intendedHiresByQuarter` (a NULL `hire_datetime` satisfies no year comparison,
so such a row would never enter a group). -/

/-- The grouping key `(department_id, job_id, quarter)` of an employee row that
passes the `WHERE year(hire_datetime) = year` filter. -/
def hireKey (year : Int) (e : Employee) : Option (Int × Int × Nat) :=
  match e.hire_datetime with
  | some dt => if dt.year == year then some (e.department_id, e.job_id, dt.quarter) else none
  | none => none

/-- The multiset (as list) of grouping keys of the rows kept by the year filter. -/
def yearHireKeys (db : DB) (year : Int) : List (Int × Int × Nat) :=
  db.employees.filterMap (hireKey year)

/-- `ORDER BY department_id, job_id, quarter` as a boolean lexicographic order. -/
def hireKeyLE (a b : Int × Int × Nat) : Bool :=
  decide (a.1 < b.1) ||
    (decide (a.1 = b.1) &&
      (decide (a.2.1 < b.2.1) || (decide (a.2.1 = b.2.1) && decide (a.2.2 ≤ b.2.2))))

/-- One result row of the aggregation. -/
structure QuarterRow where
  department_id : Int
  job_id : Int
  quarter : Nat
  hired_count : Nat
deriving DecidableEq, Repr

/-- Modelled from the spec: the aggregation the source statement is visibly
trying to build — distinct grouping keys of the year's hires, counted and
emitted in ascending lexicographic key order.  The real method never gets to
execute it; see `EmployeeService.get_hired_by_quarter`. -/
def intendedHiresByQuarter (db : DB) (year : Int) : List QuarterRow :=
  (((yearHireKeys db year).dedup).mergeSort hireKeyLE).map
    (fun k =>
      { department_id := k.1, job_id := k.2.1, quarter := k.2.2,
        hired_count := (yearHireKeys db year).count k })

/-- `EmployeeService.get_hired_by_quarter` as it actually executes: building the
statement calls `col(Employee.hire_datetime).quarter()`, a method that exists on
no SQLAlchemy column or comparator, so an `AttributeError` is raised inside the
`try` before any input is consulted, and the `except` wraps its text into
`DatabaseOperationError(f'Error retrieving hiring statistics: {str(e)}')`. -/
def EmployeeService.get_hired_by_quarter (_ : DB) (_ : Int) :
    Except SvcError (List QuarterRow) :=
  .error (.databaseOperationError
    ("Error retrieving hiring statistics: " ++
      "Neither InstrumentedAttribute object nor Comparator object associated with Employee.hire_datetime has an attribute quarter"))

/-! ### Helper lemmas -/

/-- Every bulk-import run over parsed department rows reports `status = "success"`. -/
lemma uploadDepartmentCsvRows_status (db : DB) (rows : List DepartmentCsvRow) :
    (uploadDepartmentCsvRows db rows).1.status = "success" := by
  unfold uploadDepartmentCsvRows
  split
  rfl

/-- Every bulk-import run over parsed job rows reports `status = "success"`. -/
lemma uploadJobCsvRows_status (db : DB) (rows : List JobCsvRow) :
    (uploadJobCsvRows db rows).1.status = "success" := by
  unfold uploadJobCsvRows
  split
  rfl

/-- Every bulk-import run over parsed employee rows reports `status = "success"`. -/
lemma uploadEmployeeCsvRows_status (db : DB) (rows : List EmployeeCsvRow) :
    (uploadEmployeeCsvRows db rows).1.status = "success" := by
  unfold uploadEmployeeCsvRows
  split
  rfl

/-- The import loop increments exactly one of the two counters per row: over a
whole run the counters grow by `a` and `b` with `a + b` the number of rows. -/
lemma csvImportLoop_counts {ρ : Type} (step : DB → ρ → Except SvcError DB) :
    ∀ (rows : List ρ) (db : DB) (s f : Nat),
      ∃ a b : Nat, (csvImportLoop step db rows s f).2 = (s + a, f + b) ∧ a + b = rows.length := by
  intro rows
  induction rows with
  | nil =>
    intro db s f
    exact ⟨0, 0, by simp [csvImportLoop], by simp⟩
  | cons r rest ih =>
    intro db s f
    cases h : step db r with
    | ok db2 =>
      obtain ⟨a, b, h1, h2⟩ := ih db2 (s + 1) f
      refine ⟨a + 1, b, ?_, by simp only [List.length_cons]; omega⟩
      simp only [csvImportLoop, h, h1]
      rw [Prod.mk.injEq]
      constructor <;> omega
    | error err =>
      obtain ⟨a, b, h1, h2⟩ := ih db s (f + 1)
      refine ⟨a, b + 1, ?_, by simp only [List.length_cons]; omega⟩
      simp only [csvImportLoop, h, h1]
      rw [Prod.mk.injEq]
      constructor <;> omega

/-! ### Spec-side formulation of the aggregation (for C2) -/

/-- Written from the spec's words: an employee row belongs to the group
`(d, j, q)` of a given year when its `hire_datetime`'s year component equals
the year, its department and job ids match, and the quarter derived from the
month component matches. -/
def inGroup (year : Int) (d j : Int) (q : Nat) (e : Employee) : Bool :=
  match e.hire_datetime with
  | some dt =>
    decide (dt.year = year) && decide (e.department_id = d) &&
      decide (e.job_id = j) && decide (dt.quarter = q)
  | none => false

/-- Written from the spec's words: the number of employees hired in the given
year that fall in the group `(d, j, q)`. -/
def hiredCountSpec (db : DB) (year : Int) (d j : Int) (q : Nat) : Nat :=
  (db.employees.filter (inGroup year d j q)).length

/-- Strict ascending lexicographic order on grouping keys
(department_id, then job_id, then quarter). -/
def hireKeyLT (a b : Int × Int × Nat) : Prop :=
  a.1 < b.1 ∨ (a.1 = b.1 ∧ (a.2.1 < b.2.1 ∨ (a.2.1 = b.2.1 ∧ a.2.2 < b.2.2)))

/-- The grouping key of a result row. -/
def keyOf (r : QuarterRow) : Int × Int × Nat := (r.department_id, r.job_id, r.quarter)

/-- The `ORDER BY` comparison is transitive. -/
lemma hireKeyLE_trans (a b c : Int × Int × Nat) :
    hireKeyLE a b = true → hireKeyLE b c = true → hireKeyLE a c = true := by
  obtain ⟨a1, a2, a3⟩ := a
  obtain ⟨b1, b2, b3⟩ := b
  obtain ⟨c1, c2, c3⟩ := c
  simp only [hireKeyLE, Bool.or_eq_true, Bool.and_eq_true, decide_eq_true_eq]
  omega

/-- The `ORDER BY` comparison is total. -/
lemma hireKeyLE_total (a b : Int × Int × Nat) :
    (hireKeyLE a b || hireKeyLE b a) = true := by
  obtain ⟨a1, a2, a3⟩ := a
  obtain ⟨b1, b2, b3⟩ := b
  simp only [hireKeyLE, Bool.or_eq_true, Bool.and_eq_true, decide_eq_true_eq]
  omega

/-- Non-strict key order plus distinctness gives the strict lexicographic order. -/
lemma hireKeyLE_ne_lt (a b : Int × Int × Nat) :
    hireKeyLE a b = true → a ≠ b → hireKeyLT a b := by
  obtain ⟨a1, a2, a3⟩ := a
  obtain ⟨b1, b2, b3⟩ := b
  simp only [hireKeyLE, hireKeyLT, Bool.or_eq_true, Bool.and_eq_true, decide_eq_true_eq,
    ne_eq, Prod.mk.injEq, not_and]
  omega

/-- Counting a key among the year's grouping keys is counting the employees of
that group: the bridge between the SQL `COUNT` and the spec's wording. -/
lemma count_yearHireKeys (db : DB) (year : Int) (d j : Int) (q : Nat) :
    (yearHireKeys db year).count (d, j, q) = hiredCountSpec db year d j q := by
  unfold yearHireKeys hiredCountSpec
  induction db.employees with
  | nil => rfl
  | cons e t ih =>
    rw [List.filterMap_cons, List.filter_cons]
    cases hdt : e.hire_datetime with
    | none => simpa [hireKey, inGroup, hdt] using ih
    | some dt =>
      by_cases hy : dt.year = year <;>
        by_cases h1 : e.department_id = d <;>
          by_cases h2 : e.job_id = j <;>
            by_cases h3 : dt.quarter = q <;>
              simp [hireKey, inGroup, hdt, hy, h1, h2, h3, List.count_cons, ih]

/-! ### Claims -/

/-- C1: bulk CSV import is resilient per row.  Whenever the per-row body (record
construction plus `create`) fails on a row, the loop counts one failure and
continues with exactly the remaining rows on the rolled-back store — the same
loop shape is instantiated by all three endpoints — and each endpoint returns a
`status = "success"` report for every parsed row sequence. -/
theorem spec_c1_per_row_resilience {ρ : Type}
    (step : DB → ρ → Except SvcError DB) (db : DB) (r : ρ) (rest : List ρ)
    (s f : Nat) (err : SvcError) (h : step db r = .error err) :
    csvImportLoop step db (r :: rest) s f = csvImportLoop step db rest s (f + 1) ∧
    (∀ (dbe : DB) (rows : List EmployeeCsvRow),
      (uploadEmployeeCsvRows dbe rows).1.status = "success") ∧
    (∀ (dbd : DB) (rows : List DepartmentCsvRow),
      (uploadDepartmentCsvRows dbd rows).1.status = "success") ∧
    (∀ (dbj : DB) (rows : List JobCsvRow),
      (uploadJobCsvRows dbj rows).1.status = "success") := by
  refine ⟨?_, uploadEmployeeCsvRows_status, uploadDepartmentCsvRows_status,
    uploadJobCsvRows_status⟩
  simp only [csvImportLoop, h]

/-- C1 witness: a concrete failing employee row (no departments exist yet) is
counted as one failure and the loop moves on. -/
theorem spec_c1_witness :
    csvImportLoop employeeCsvStep { departments := [], jobs := [], employees := [] }
        [{ id := 1, name := "John Doe", datetimeCol := { year := 2021, month := 2, day := 1 },
           department_id := 1, job_id := 1 }] 0 0 =
      csvImportLoop employeeCsvStep { departments := [], jobs := [], employees := [] } [] 0 (0 + 1) ∧
    (∀ (dbe : DB) (rows : List EmployeeCsvRow),
      (uploadEmployeeCsvRows dbe rows).1.status = "success") ∧
    (∀ (dbd : DB) (rows : List DepartmentCsvRow),
      (uploadDepartmentCsvRows dbd rows).1.status = "success") ∧
    (∀ (dbj : DB) (rows : List JobCsvRow),
      (uploadJobCsvRows dbj rows).1.status = "success") :=
  spec_c1_per_row_resilience employeeCsvStep
    { departments := [], jobs := [], employees := [] }
    { id := 1, name := "John Doe", datetimeCol := { year := 2021, month := 2, day := 1 },
      department_id := 1, job_id := 1 } [] 0 0
    (.databaseOperationError
      "Error creating employee: null value in column hire_datetime violates not-null constraint")
    rfl

/-- C2: the claim says `get_hired_by_quarter(year)` returns exactly the year's
groups, sorted ascending with empty groups omitted, but the real method never
returns any group: on every input it raises `DatabaseOperationError` wrapping
the `AttributeError` from the nonexistent `.quarter()` column method.  The
aggregation the statement intends — the one the claim describes — does have
exactly the claimed shape: rows strictly ascending in (department_id, job_id,
quarter), and a row (d, j, q, c) appears precisely when c is the positive
number of employees hired in that year, department, job and month-derived
quarter. -/
theorem spec_c2_hires_query_always_raises (db : DB) (year : Int) :
    (∃ msg, EmployeeService.get_hired_by_quarter db year =
      .error (.databaseOperationError ("Error retrieving hiring statistics: " ++ msg))) ∧
    List.Pairwise (fun r1 r2 => hireKeyLT (keyOf r1) (keyOf r2))
      (intendedHiresByQuarter db year) ∧
    ∀ (d j : Int) (q c : Nat),
      ({ department_id := d, job_id := j, quarter := q, hired_count := c } : QuarterRow) ∈
          intendedHiresByQuarter db year ↔
        (c = hiredCountSpec db year d j q ∧ 0 < c) := by
  refine ⟨⟨_, rfl⟩, ?_, ?_⟩
  · unfold intendedHiresByQuarter
    have hsorted :=
      List.sorted_mergeSort hireKeyLE_trans hireKeyLE_total ((yearHireKeys db year).dedup)
    have hnodup :
        (((yearHireKeys db year).dedup).mergeSort hireKeyLE).Nodup :=
      ((List.mergeSort_perm (yearHireKeys db year).dedup hireKeyLE).nodup_iff).mpr
        (List.nodup_dedup _)
    refine List.Pairwise.map _ ?_ (hsorted.and hnodup)
    intro a b hab
    obtain ⟨a1, a2, a3⟩ := a
    obtain ⟨b1, b2, b3⟩ := b
    exact hireKeyLE_ne_lt _ _ hab.1 hab.2
  · intro d j q c
    unfold intendedHiresByQuarter
    rw [List.mem_map]
    constructor
    · rintro ⟨k, hk, hmk⟩
      obtain ⟨k1, k2, k3⟩ := k
      rw [QuarterRow.mk.injEq] at hmk
      obtain ⟨e1, e2, e3, e4⟩ := hmk
      subst e1
      subst e2
      subst e3
      rw [List.mem_mergeSort, List.mem_dedup] at hk
      refine ⟨?_, ?_⟩
      · rw [← e4, count_yearHireKeys]
      · rw [← e4]
        exact List.count_pos_iff.mpr hk
    · rintro ⟨hc, hpos⟩
      refine ⟨(d, j, q), ?_, ?_⟩
      · rw [List.mem_mergeSort, List.mem_dedup]
        apply List.count_pos_iff.mp
        rw [count_yearHireKeys]
        exact hc ▸ hpos
      · rw [QuarterRow.mk.injEq]
        refine ⟨rfl, rfl, rfl, ?_⟩
        rw [count_yearHireKeys]
        exact hc.symm

/-- C3: the employee CSV importer is meant to build the typed record from the
positional fields and insert a fully valid row, but the route passes the third
column under the keyword `datetime`, which is not a field of `Employee`, so
`hire_datetime` is never set; at a row whose fields are all valid (existing
department 1 and job 1), the insert violates the NOT NULL constraint, the row is
counted as a failed import, and nothing is persisted. -/
theorem spec_c3_hire_datetime_never_set :
    uploadEmployeeCsvRows
        { departments := [{ id := 1, department := "Engineering" }],
          jobs := [{ id := 1, job := "Software Engineer" }], employees := [] }
        [{ id := 1, name := "John Doe", datetimeCol := { year := 2021, month := 2, day := 1 },
           department_id := 1, job_id := 1 }] =
      ({ status := "success", successful_imports := "0", failed_imports := "1" },
       { departments := [{ id := 1, department := "Engineering" }],
         jobs := [{ id := 1, job := "Software Engineer" }], employees := [] }) ∧
    employeeFromCsvRow
        { id := 1, name := "John Doe", datetimeCol := { year := 2021, month := 2, day := 1 },
          department_id := 1, job_id := 1 } =
      { id := 1, name := "John Doe", hire_datetime := none, department_id := 1, job_id := 1 } :=
  ⟨rfl, rfl⟩

/-- C4: when the input stream cannot be read or parsed, the failure happens
before any row is processed, so the request as a whole fails with HTTP status
500 and the store is exactly the initial one (no row of the batch persisted),
for all three import endpoints. -/
theorem spec_c4_fatal_import_rolls_back (db : DB) (msg : String) :
    upload_employee_csv (.error msg) db = (.error { status_code := 500, detail := msg }, db) ∧
    upload_department_csv (.error msg) db = (.error { status_code := 500, detail := msg }, db) ∧
    upload_job_csv (.error msg) db = (.error { status_code := 500, detail := msg }, db) :=
  ⟨rfl, rfl, rfl⟩

/-- C5: a bulk import over any parsed rows responds with `status = "success"`
and the two counters serialized as strings, and the counters sum to the number
of parsed rows (each row having incremented exactly one of them). -/
theorem spec_c5_success_report_counts (db : DB) (rows : List EmployeeCsvRow) :
    ∃ s f : Nat,
      (uploadEmployeeCsvRows db rows).1 =
        { status := "success", successful_imports := toString s, failed_imports := toString f } ∧
      (csvImportLoop employeeCsvStep db rows 0 0).2 = (s, f) ∧
      s + f = rows.length := by
  obtain ⟨a, b, h1, h2⟩ := csvImportLoop_counts employeeCsvStep rows db 0 0
  refine ⟨a, b, ?_, ?_, h2⟩
  · unfold uploadEmployeeCsvRows
    rcases hL : csvImportLoop employeeCsvStep db rows 0 0 with ⟨db2, s2, f2⟩
    rw [hL] at h1
    simp only at h1
    rw [Prod.mk.injEq] at h1
    simp [h1.1, h1.2]
  · rw [h1]
    simp

/-- C6: for each of the three repositories, when the store rejects the insert
with some constraint-violation detail, `create` raises `DatabaseOperationError`
whose message wraps that original detail, and the store (rolled back) is
unchanged by the failed call. -/
theorem spec_c6_create_wraps_and_rolls_back (db : DB) (d : Department) (j : Job)
    (e : Employee) (md mj msgE : String)
    (hd : db.insertDepartment d = .error md)
    (hj : db.insertJob j = .error mj)
    (he : db.insertEmployee e = .error msgE) :
    DepartmentService.create db d =
      (.error (.databaseOperationError ("Error creating department: " ++ md)), db) ∧
    JobService.create db j =
      (.error (.databaseOperationError ("Error creating job: " ++ mj)), db) ∧
    EmployeeService.create db e =
      (.error (.databaseOperationError ("Error creating employee: " ++ msgE)), db) := by
  unfold DepartmentService.create JobService.create EmployeeService.create
  rw [hd, hj, he]
  exact ⟨rfl, rfl, rfl⟩

/-- C6 witness: duplicate ids for department and job, and a dangling
`department_id` for the employee, on a concrete store. -/
theorem spec_c6_witness :
    DepartmentService.create
        { departments := [{ id := 1, department := "Engineering" }],
          jobs := [{ id := 1, job := "Software Engineer" }], employees := [] }
        { id := 1, department := "HR" } =
      (.error (.databaseOperationError
        ("Error creating department: " ++
          "duplicate key value violates unique constraint departments_pkey")),
       { departments := [{ id := 1, department := "Engineering" }],
         jobs := [{ id := 1, job := "Software Engineer" }], employees := [] }) ∧
    JobService.create
        { departments := [{ id := 1, department := "Engineering" }],
          jobs := [{ id := 1, job := "Software Engineer" }], employees := [] }
        { id := 1, job := "Analyst" } =
      (.error (.databaseOperationError
        ("Error creating job: " ++ "duplicate key value violates unique constraint jobs_pkey")),
       { departments := [{ id := 1, department := "Engineering" }],
         jobs := [{ id := 1, job := "Software Engineer" }], employees := [] }) ∧
    EmployeeService.create
        { departments := [{ id := 1, department := "Engineering" }],
          jobs := [{ id := 1, job := "Software Engineer" }], employees := [] }
        { id := 7, name := "John Doe", hire_datetime := some { year := 2021, month := 2, day := 1 },
          department_id := 99, job_id := 1 } =
      (.error (.databaseOperationError
        ("Error creating employee: " ++
          "insert on table employees violates foreign key constraint employees_department_id_fkey")),
       { departments := [{ id := 1, department := "Engineering" }],
         jobs := [{ id := 1, job := "Software Engineer" }], employees := [] }) :=
  spec_c6_create_wraps_and_rolls_back _ _ _ _ _ _ _ rfl rfl rfl

/-- C7: the claim says `get_by_id`, `update` and `delete` all raise
`ResourceNotFoundError` on an absent id for every entity repository, as the
service docstrings also promise; but `EmployeeService.delete` and
`JobService.delete` run `get_by_id` inside their `try` block and re-wrap the
not-found error as `DatabaseOperationError`, and `DepartmentService.update`
does the same, as these evaluations on an empty store show (while
`get_by_id` itself does raise `ResourceNotFoundError` there). -/
theorem spec_c7_absent_id_error_types :
    EmployeeService.delete { departments := [], jobs := [], employees := [] } 1 =
      (.error (.databaseOperationError "Error deleting employee: Employee with ID 1 not found"),
       { departments := [], jobs := [], employees := [] }) ∧
    JobService.delete { departments := [], jobs := [], employees := [] } 1 =
      (.error (.databaseOperationError "Error deleting job: Job with ID 1 not found"),
       { departments := [], jobs := [], employees := [] }) ∧
    DepartmentService.update { departments := [], jobs := [], employees := [] } 1
        { id := none, department := none } =
      (.error (.databaseOperationError "Error updating department: Department with ID 1 not found"),
       { departments := [], jobs := [], employees := [] }) ∧
    EmployeeService.get_by_id { departments := [], jobs := [], employees := [] } 1 =
      .error (.resourceNotFoundError "Employee with ID 1 not found") :=
  ⟨rfl, rfl, rfl, rfl⟩

/-- Replacing every row whose id is `oldId` by `r` and then looking up `r`'s id
finds `r`, provided some row had id `oldId` and no other row already had `r`'s id. -/
lemma find?_map_replace {α : Type} (idOf : α → Int) (r : α) (oldId : Int) :
    ∀ (L : List α) (old : α),
      L.find? (fun x => idOf x == oldId) = some old →
      L.any (fun x => !(idOf x == oldId) && idOf x == idOf r) = false →
      (L.map (fun x => if idOf x == oldId then r else x)).find?
        (fun x => idOf x == idOf r) = some r := by
  intro L
  induction L with
  | nil =>
    intro old h _
    simp at h
  | cons x t ih =>
    intro old hfind hany
    rw [List.any_cons, Bool.or_eq_false_iff] at hany
    by_cases hx : (idOf x == oldId) = true
    · simp only [List.map_cons, hx, if_true]
      exact List.find?_cons_of_pos _ (beq_self_eq_true _)
    · have hx2 : (idOf x == oldId) = false := by
        simpa using hx
      have hxr : (idOf x == idOf r) = false := by
        have hh := hany.1
        rw [hx2] at hh
        simpa using hh
      have hfind2 : t.find? (fun x => idOf x == oldId) = some old := by
        rwa [List.find?_cons_of_neg _ (by simp [hx2])] at hfind
      simp only [List.map_cons, hx2, Bool.false_eq_true, if_false]
      rw [List.find?_cons_of_neg _ (by simp [hxr])]
      exact ih old hfind2 hany.2

/-- C9: inserting an employee whose `department_id` or `job_id` matches no
existing row always fails with `DatabaseOperationError` and leaves the store
unchanged (the employee is not persisted). -/
theorem spec_c9_referential_integrity (db : DB) (e : Employee)
    (h : db.departments.any (fun d => d.id == e.department_id) = false ∨
         db.jobs.any (fun j => j.id == e.job_id) = false) :
    ∃ msg, EmployeeService.create db e = (.error (.databaseOperationError msg), db) := by
  have hstore : ∃ msg, db.insertEmployee e = .error msg := by
    unfold DB.insertEmployee
    by_cases h1 : db.employees.any (fun x => x.id == e.id)
    · exact ⟨_, by rw [if_pos h1]⟩
    · by_cases h2 : e.hire_datetime.isNone
      · exact ⟨_, by rw [if_neg h1, if_pos h2]⟩
      · by_cases h3 : db.departments.any (fun d => d.id == e.department_id)
        · have h4 : db.jobs.any (fun j => j.id == e.job_id) = false := by
            rcases h with h | h
            · rw [h3] at h
              exact absurd h (by simp)
            · exact h
          exact ⟨_, by rw [if_neg h1, if_neg h2, if_neg (by simp [h3]), if_pos (by simp [h4])]⟩
        · exact ⟨_, by rw [if_neg h1, if_neg h2, if_pos (by simp [h3])]⟩
  obtain ⟨msg, hm⟩ := hstore
  refine ⟨"Error creating employee: " ++ msg, ?_⟩
  unfold EmployeeService.create
  rw [hm]

/-- C9 witness: an employee referencing department 99 on a store that only has
department 1 is rejected. -/
theorem spec_c9_witness :
    ({ departments := [{ id := 1, department := "Engineering" }],
       jobs := [{ id := 1, job := "Software Engineer" }], employees := [] } : DB).departments.any
        (fun d => d.id == (99 : Int)) = false ∧
    ∃ msg,
      EmployeeService.create
          { departments := [{ id := 1, department := "Engineering" }],
            jobs := [{ id := 1, job := "Software Engineer" }], employees := [] }
          { id := 7, name := "John Doe",
            hire_datetime := some { year := 2021, month := 2, day := 1 },
            department_id := 99, job_id := 1 } =
        (.error (.databaseOperationError msg),
         { departments := [{ id := 1, department := "Engineering" }],
           jobs := [{ id := 1, job := "Software Engineer" }], employees := [] }) :=
  ⟨rfl, spec_c9_referential_integrity _ _ (Or.inl rfl)⟩

/-- C8: `update` is a merge-patch for the Job and Employee services: whenever an
update of an existing record returns a record, every field explicitly set in the
payload is overwritten with the payload's value, every unset field keeps the
previous record's value, and reading the record back afterwards yields exactly
the updated record. -/
theorem spec_c8_update_is_merge_patch
    (db dbE : DB) (jobId empId : Int) (p : JobPatch) (q : EmployeePatch)
    (old res : Job) (oldE resE : Employee) (db2 dbE2 : DB)
    (hget : JobService.get_by_id db jobId = .ok old)
    (hupd : JobService.update db jobId p = (.ok (some res), db2))
    (hgetE : EmployeeService.get_by_id dbE empId = .ok oldE)
    (hupdE : EmployeeService.update dbE empId q = (.ok (some resE), dbE2)) :
    ((∀ v, p.id = some v → res.id = v) ∧ (p.id = none → res.id = old.id) ∧
     (∀ v, p.job = some v → res.job = v) ∧ (p.job = none → res.job = old.job) ∧
     JobService.get_by_id db2 res.id = .ok res) ∧
    ((∀ v, q.id = some v → resE.id = v) ∧ (q.id = none → resE.id = oldE.id) ∧
     (∀ v, q.name = some v → resE.name = v) ∧ (q.name = none → resE.name = oldE.name) ∧
     (∀ v, q.hire_datetime = some v → resE.hire_datetime = some v) ∧
     (q.hire_datetime = none → resE.hire_datetime = oldE.hire_datetime) ∧
     (∀ v, q.department_id = some v → resE.department_id = v) ∧
     (q.department_id = none → resE.department_id = oldE.department_id) ∧
     (∀ v, q.job_id = some v → resE.job_id = v) ∧
     (q.job_id = none → resE.job_id = oldE.job_id) ∧
     EmployeeService.get_by_id dbE2 resE.id = .ok resE) := by
  constructor
  · unfold JobService.update at hupd
    rw [hget] at hupd
    simp only [pyTruthy, Bool.not_true, Bool.false_eq_true, if_false] at hupd
    cases hrow : db.updateJobRow jobId (old.applyPatch p) with
    | error m =>
      rw [hrow] at hupd
      exact absurd hupd (by simp)
    | ok db3 =>
      rw [hrow] at hupd
      rw [Prod.mk.injEq] at hupd
      have hres : old.applyPatch p = res := by
        have := hupd.1
        simpa using this
      have hdb : db3 = db2 := hupd.2
      unfold DB.updateJobRow at hrow
      by_cases c1 : db.jobs.any (fun x => !(x.id == jobId) && x.id == (old.applyPatch p).id)
      · rw [if_pos c1] at hrow
        exact absurd hrow (by simp)
      · rw [if_neg c1] at hrow
        by_cases c2 : (!((old.applyPatch p).id == jobId) &&
            db.employees.any (fun e => e.job_id == jobId)) = true
        · rw [if_pos c2] at hrow
          exact absurd hrow (by simp)
        · rw [if_neg c2] at hrow
          have hjobs : db2.jobs = db.jobs.map (fun x => if x.id == jobId then res else x) := by
            rw [← hdb]
            cases hrow
            simp [hres]
          have hfind : db.jobs.find? (fun x => x.id == jobId) = some old := by
            unfold JobService.get_by_id at hget
            cases hf : db.jobs.find? (fun x => x.id == jobId) with
            | some y =>
              rw [hf] at hget
              simpa using hget
            | none =>
              rw [hf] at hget
              exact absurd hget (by simp)
          have hany : db.jobs.any (fun x => !(x.id == jobId) && x.id == res.id) = false := by
            rw [← hres]
            simpa using c1
          refine ⟨?_, ?_, ?_, ?_, ?_⟩
          · intro v hv
            rw [← hres]
            simp [Job.applyPatch, hv]
          · intro hv
            rw [← hres]
            simp [Job.applyPatch, hv]
          · intro v hv
            rw [← hres]
            simp [Job.applyPatch, hv]
          · intro hv
            rw [← hres]
            simp [Job.applyPatch, hv]
          · unfold JobService.get_by_id
            rw [hjobs, find?_map_replace Job.id res jobId db.jobs old hfind hany]
  · unfold EmployeeService.update at hupdE
    rw [hgetE] at hupdE
    simp only [pyTruthy, Bool.not_true, Bool.false_eq_true, if_false] at hupdE
    cases hrow : dbE.updateEmployeeRow empId (oldE.applyPatch q) with
    | error m =>
      rw [hrow] at hupdE
      exact absurd hupdE (by simp)
    | ok db3 =>
      rw [hrow] at hupdE
      rw [Prod.mk.injEq] at hupdE
      have hres : oldE.applyPatch q = resE := by
        have := hupdE.1
        simpa using this
      have hdb : db3 = dbE2 := hupdE.2
      unfold DB.updateEmployeeRow at hrow
      by_cases c1 : dbE.employees.any
          (fun x => !(x.id == empId) && x.id == (oldE.applyPatch q).id)
      · rw [if_pos c1] at hrow
        exact absurd hrow (by simp)
      · rw [if_neg c1] at hrow
        by_cases c2 : (oldE.applyPatch q).hire_datetime.isNone = true
        · rw [if_pos c2] at hrow
          exact absurd hrow (by simp)
        · rw [if_neg c2] at hrow
          by_cases c3 : (!(dbE.departments.any
              (fun d => d.id == (oldE.applyPatch q).department_id))) = true
          · rw [if_pos c3] at hrow
            exact absurd hrow (by simp)
          · rw [if_neg c3] at hrow
            by_cases c4 : (!(dbE.jobs.any (fun j => j.id == (oldE.applyPatch q).job_id))) = true
            · rw [if_pos c4] at hrow
              exact absurd hrow (by simp)
            · rw [if_neg c4] at hrow
              have hemps : dbE2.employees =
                  dbE.employees.map (fun x => if x.id == empId then resE else x) := by
                rw [← hdb]
                cases hrow
                simp [hres]
              have hfind : dbE.employees.find? (fun x => x.id == empId) = some oldE := by
                unfold EmployeeService.get_by_id at hgetE
                cases hf : dbE.employees.find? (fun x => x.id == empId) with
                | some y =>
                  rw [hf] at hgetE
                  simpa using hgetE
                | none =>
                  rw [hf] at hgetE
                  exact absurd hgetE (by simp)
              have hany : dbE.employees.any
                  (fun x => !(x.id == empId) && x.id == resE.id) = false := by
                rw [← hres]
                simpa using c1
              refine ⟨?_, ?_, ?_, ?_, ?_, ?_, ?_, ?_, ?_, ?_, ?_⟩
              · intro v hv
                rw [← hres]
                simp [Employee.applyPatch, hv]
              · intro hv
                rw [← hres]
                simp [Employee.applyPatch, hv]
              · intro v hv
                rw [← hres]
                simp [Employee.applyPatch, hv]
              · intro hv
                rw [← hres]
                simp [Employee.applyPatch, hv]
              · intro v hv
                rw [← hres]
                simp [Employee.applyPatch, hv]
              · intro hv
                rw [← hres]
                simp [Employee.applyPatch, hv]
              · intro v hv
                rw [← hres]
                simp [Employee.applyPatch, hv]
              · intro hv
                rw [← hres]
                simp [Employee.applyPatch, hv]
              · intro v hv
                rw [← hres]
                simp [Employee.applyPatch, hv]
              · intro hv
                rw [← hres]
                simp [Employee.applyPatch, hv]
              · unfold EmployeeService.get_by_id
                rw [hemps,
                  find?_map_replace Employee.id resE empId dbE.employees oldE hfind hany]

/-- C8 witness: `Job{id 1, job "A"}` patched with only `job := "B"` reads back as
`Job{id 1, job "B"}`, and an employee patched with only `name := "Jane"` keeps
all other fields. -/
theorem spec_c8_witness :
    ((∀ v, (none : Option Int) = some v → (1 : Int) = v) ∧
     ((none : Option Int) = none → (1 : Int) = (1 : Int)) ∧
     (∀ v, (some "B" : Option String) = some v → "B" = v) ∧
     ((some "B" : Option String) = none → "B" = "A") ∧
     JobService.get_by_id
       { departments := [], jobs := [{ id := 1, job := "B" }], employees := [] } 1 =
       .ok { id := 1, job := "B" }) ∧
    ((∀ v, (none : Option Int) = some v → (1 : Int) = v) ∧
     ((none : Option Int) = none → (1 : Int) = (1 : Int)) ∧
     (∀ v, (some "Jane" : Option String) = some v → "Jane" = v) ∧
     ((some "Jane" : Option String) = none → "Jane" = "John") ∧
     (∀ v, (none : Option DateTime) = some v →
       (some { year := 2021, month := 2, day := 1 } : Option DateTime) = some v) ∧
     ((none : Option DateTime) = none →
       (some { year := 2021, month := 2, day := 1 } : Option DateTime) =
         some { year := 2021, month := 2, day := 1 }) ∧
     (∀ v, (none : Option Int) = some v → (1 : Int) = v) ∧
     ((none : Option Int) = none → (1 : Int) = (1 : Int)) ∧
     (∀ v, (none : Option Int) = some v → (1 : Int) = v) ∧
     ((none : Option Int) = none → (1 : Int) = (1 : Int)) ∧
     EmployeeService.get_by_id
       { departments := [{ id := 1, department := "Engineering" }],
         jobs := [{ id := 1, job := "Software Engineer" }],
         employees :=
           [{ id := 1, name := "Jane",
              hire_datetime := some { year := 2021, month := 2, day := 1 },
              department_id := 1, job_id := 1 }] } 1 =
       .ok { id := 1, name := "Jane",
             hire_datetime := some { year := 2021, month := 2, day := 1 },
             department_id := 1, job_id := 1 }) :=
  spec_c8_update_is_merge_patch
    { departments := [], jobs := [{ id := 1, job := "A" }], employees := [] }
    { departments := [{ id := 1, department := "Engineering" }],
      jobs := [{ id := 1, job := "Software Engineer" }],
      employees :=
        [{ id := 1, name := "John",
           hire_datetime := some { year := 2021, month := 2, day := 1 },
           department_id := 1, job_id := 1 }] }
    1 1 { id := none, job := some "B" }
    { id := none, name := some "Jane", hire_datetime := none,
      department_id := none, job_id := none }
    { id := 1, job := "A" } { id := 1, job := "B" }
    { id := 1, name := "John", hire_datetime := some { year := 2021, month := 2, day := 1 },
      department_id := 1, job_id := 1 }
    { id := 1, name := "Jane", hire_datetime := some { year := 2021, month := 2, day := 1 },
      department_id := 1, job_id := 1 }
    { departments := [], jobs := [{ id := 1, job := "B" }], employees := [] }
    { departments := [{ id := 1, department := "Engineering" }],
      jobs := [{ id := 1, job := "Software Engineer" }],
      employees :=
        [{ id := 1, name := "Jane",
           hire_datetime := some { year := 2021, month := 2, day := 1 },
           department_id := 1, job_id := 1 }] }
    rfl rfl rfl rfl

/-- C10: for the Employee and Job services, `update` never returns the `None` of
the dead `if not existing: return None` branch: `get_by_id` either raises or
returns a (truthy) record, so every call either raises an error or returns the
updated record. -/
theorem spec_c10_update_never_none (db : DB) (i : Int)
    (pe : EmployeePatch) (pj : JobPatch) :
    (EmployeeService.update db i pe).1 ≠ .ok none ∧
    (JobService.update db i pj).1 ≠ .ok none := by
  constructor
  · unfold EmployeeService.update
    cases h : EmployeeService.get_by_id db i with
    | error e => simp
    | ok ex =>
      simp only [pyTruthy, Bool.not_true, Bool.false_eq_true, if_false]
      cases h2 : db.updateEmployeeRow i (ex.applyPatch pe) <;> simp
  · unfold JobService.update
    cases h : JobService.get_by_id db i with
    | error e => simp
    | ok ex =>
      simp only [pyTruthy, Bool.not_true, Bool.false_eq_true, if_false]
      cases h2 : db.updateJobRow i (ex.applyPatch pj) <;> simp

end Globant
